import Mathlib

/-!
Verification development for the RLPPTM test-provider / test-station
approval and commissioning workflow
(modules/templates/RLPPTM/models/org.py).

The data model and the workflow operations are shallowly embedded:
  * enumerated status codes become inductive types,
  * database rows become structures,
  * the Python update-dicts become structures of optional fields,
  * dates become integers (day numbers),
  * the SHA256 content hash of get_dhash is kept abstract: get_dhash is
    the composition of an arbitrary digest function with the exact
    Python string serialisation, and the site/provider verification
    hashes are carried as opaque strings (only equality of hash values
    is ever inspected by the workflow code).
-/

/-- Organisation-type verification status (org_verification.orgtype):
N/A, ACCEPT, N/V, VERIFIED. -/
inductive OrgStatus
  | NA
  | ACCEPT
  | NV
  | VERIFIED
deriving DecidableEq, Fintype

/-- Manager-information status (org_verification.mgrinfo):
N/A, ACCEPT, REVISE, COMPLETE. -/
inductive MgrStatus
  | NA
  | ACCEPT
  | REVISE
  | COMPLETE
deriving DecidableEq, Fintype

/-- Commission status (org_commission.status). -/
inductive CStatus
  | CURRENT
  | SUSPENDED
  | REVOKED
  | EXPIRED
deriving DecidableEq, Fintype

/-- Commission status reason codes (commission_status_reasons): N/V, OVERRIDE. -/
inductive CReason
  | NV
  | OVERRIDE
deriving DecidableEq, Fintype

/-- Site approval processing status (org_site_approval.status). -/
inductive WfStatus
  | REVISE
  | READY
  | REVIEW
  | APPROVED
deriving DecidableEq, Fintype

/-- Review-dimension status (mpav/hygiene/layout). -/
inductive RStatus
  | REVISE
  | REVIEW
  | APPROVED
deriving DecidableEq, Fintype

/-- Public-registry flag (org_site_approval.public): Y or N. -/
inductive Pub
  | Y
  | N
deriving DecidableEq, Fintype

/-- Reason codes for unlisting (public_reasons dict of TestStationModel). -/
inductive PReason
  | NEW
  | COMMISSION
  | REVISE
  | REVIEW
  | OVERRIDE
deriving DecidableEq, Fintype

/-! ## get_dhash (org.py 2147-2160) -/

/-- A Python value as passed to get_dhash: None, a string, an integer or
a boolean. -/
inductive PyVal
  | none
  | str (s : String)
  | int (n : Int)
  | bool (b : Bool)
deriving DecidableEq

/-- Python truthiness of a PyVal. -/
def pyTruthy : PyVal → Bool
  | .none => false
  | .str s => s ≠ ""
  | .int n => n ≠ 0
  | .bool b => b

/-- Python str() of a PyVal. -/
def pyStr : PyVal → String
  | .none => "None"
  | .str s => s
  | .int n => toString n
  | .bool b => if b then "True" else "False"

/-- The serialisation built by get_dhash before hashing:
"#".join(str(v) if v else "***" for v in values). -/
def dhashSerial (values : List PyVal) : String :=
  String.intercalate "#" (values.map (fun v => if pyTruthy v then pyStr v else "***"))

/-- get_dhash (org.py 2147-2160): hashlib.sha256 over the serialisation.
The digest function sha256-hexdigest is abstracted as a parameter; the
workflow only ever compares digests for equality. -/
def get_dhash (digest : String → String) (values : List PyVal) : String :=
  digest (dhashSerial values)

/-! ## Provider verification (class TestProvider, org.py 667-1409) -/

/-- One organisation-type link with its type tags
(TestProvider.types, org.py 766-808): a type id together with the
tag-value pairs of that organisation type. -/
structure OrgTypeRec where
  type_id : Nat
  tags : List (String × String)
deriving DecidableEq

/-- Lookup of a tag value in an organisation-type record
(the tags dict of TestProvider.types). -/
def tagValue (t : OrgTypeRec) (tag : String) : Option String :=
  (t.tags.find? (fun kv => kv.1 == tag)).map (fun kv => kv.2)

namespace TestProvider

/-- TestProvider.verifreq (org.py 824-834): whether any organisation
type carries tag VERIFREQ = Y. -/
def verifreq (types : List OrgTypeRec) : Bool :=
  types.any (fun t => tagValue t "VERIFREQ" == some "Y")

/-- TestProvider.minforeq (org.py 836-847): whether any organisation
type carries tag MINFOREQ = Y. -/
def minforeq (types : List OrgTypeRec) : Bool :=
  types.any (fun t => tagValue t "MINFOREQ" == some "Y")

end TestProvider

/-- An org_verification row (org.py 77-114): the hidden data hash, the
orgtype and mgrinfo statuses and the derived accepted flag.  mgrinfo is
optional because TestProvider.check_mgrinfo returns None for
organisations outside the TESTSTATIONS group. -/
structure Verification where
  dhash : Option String
  orgtype : OrgStatus
  mgrinfo : Option MgrStatus
  accepted : Bool
deriving DecidableEq

/-- The field defaults computed by TestProvider.verification_defaults. -/
structure VDefaults where
  orgtype : OrgStatus
  mgrinfo : Option MgrStatus
  accepted : Bool
deriving DecidableEq

namespace TestProvider

/-- TestProvider.verification_defaults (org.py 879-900).  The
check_mgrinfo() result is passed in as chk (it depends on staff rows,
contact rows and role membership, which are external to this record). -/
def verification_defaults (types : List OrgTypeRec) (chk : Option MgrStatus) : VDefaults :=
  let orgtype := if !types.isEmpty then (if verifreq types then OrgStatus.NV else OrgStatus.ACCEPT)
                 else OrgStatus.NA
  let mgrinfo := if minforeq types then chk else some MgrStatus.ACCEPT
  let accepted := ((orgtype == OrgStatus.ACCEPT) || (orgtype == OrgStatus.VERIFIED)) &&
                  ((mgrinfo == some MgrStatus.ACCEPT) || (mgrinfo == some MgrStatus.COMPLETE))
  { orgtype := orgtype, mgrinfo := mgrinfo, accepted := accepted }

/-- TestProvider.add_verification_defaults (org.py 961-981): inserts an
org_verification row with the computed defaults (dhash unset). -/
def add_verification_defaults (types : List OrgTypeRec) (chk : Option MgrStatus) : Verification :=
  let d := verification_defaults types chk
  { dhash := none, orgtype := d.orgtype, mgrinfo := d.mgrinfo, accepted := d.accepted }

/-- TestProvider.vhash (org.py 984-1009), hash part: the data hash over
the sorted organisation-type ids, "|".join(str(x) for x in sorted(types)). -/
def provider_vhash (digest : String → String) (types : List OrgTypeRec) : String :=
  let ids := (types.map (fun t => t.type_id)).insertionSort (· ≤ ·)
  get_dhash digest [PyVal.str (String.intercalate "|" (ids.map toString))]

/-- TestProvider.update_verification (org.py 1172-1206), record part.
Returns the updated org_verification row together with the accepted
flag that decides the subsequent reinstate/suspend cascade (note that
in the hash-changed branch the source uses the OLD accepted value for
that decision). -/
def update_verification (digest : String → String) (types : List OrgTypeRec)
    (chk : Option MgrStatus) (v : Verification) : Verification × Bool :=
  let vh := provider_vhash digest types
  if some vh ≠ v.dhash then
    let d := verification_defaults types chk
    ({ dhash := some vh, orgtype := d.orgtype, mgrinfo := d.mgrinfo, accepted := d.accepted },
     v.accepted)
  else
    let orgtype := v.orgtype
    let mgrinfo := if minforeq types then chk else some MgrStatus.ACCEPT
    let accepted := ((orgtype == OrgStatus.ACCEPT) || (orgtype == OrgStatus.VERIFIED)) &&
                    ((mgrinfo == some MgrStatus.ACCEPT) || (mgrinfo == some MgrStatus.COMPLETE))
    let v1 := if mgrinfo ≠ v.mgrinfo then { v with mgrinfo := mgrinfo } else v
    let v2 := if accepted ≠ v1.accepted then { v1 with accepted := accepted } else v1
    (v2, accepted)

end TestProvider

/-- The acceptance formula stated by the specification:
accepted = (orgtype in {ACCEPT, VERIFIED}) and (mgrinfo in {ACCEPT, COMPLETE}). -/
def acceptedFormula (orgtype : OrgStatus) (mgrinfo : Option MgrStatus) : Bool :=
  ((orgtype == OrgStatus.ACCEPT) || (orgtype == OrgStatus.VERIFIED)) &&
  ((mgrinfo == some MgrStatus.ACCEPT) || (mgrinfo == some MgrStatus.COMPLETE))

/-! ## Commissions (TestProviderModel, org.py 116-386) -/

/-- An org_commission row (org.py 121-160): start date, optional end
date, status, previous status, status date and reason.  Dates are day
numbers; deleted is the soft-delete flag of the framework. -/
structure Commission where
  organisation_id : Nat
  date : Int
  end_date : Option Int
  status : CStatus
  prev_status : Option CStatus
  status_date : Option Int
  status_reason : Option CReason
  deleted : Bool := false
deriving DecidableEq

/-- Field errors set by commission_onvalidation. -/
inductive CError
  | endNotAfterStart
  | overlap
  | notVerified
  | pastEnd
  | reasonRequired
deriving DecidableEq

/-- The form.errors mapping of the commission form (only the four keys
commission_onvalidation ever writes). -/
structure CFormErrors where
  date : Option CError := none
  end_date : Option CError := none
  status : Option CError := none
  status_reason : Option CError := none
deriving DecidableEq

/-- The effective record data assembled by commission_onvalidation
(org.py 253-271): for each of the four relevant fields either the form
value or the stored/default value, plus flags telling which fields were
present in form.vars (they select which checks run and which field gets
the error).  status_reason is the raw reason string ("" when absent). -/
structure CFormData where
  organisation_id : Nat
  date : Int
  end_date : Option Int
  status : CStatus
  status_reason : String
  hasDate : Bool
  hasEndDate : Bool
  hasStatus : Bool
  hasReason : Bool
deriving DecidableEq

namespace TestProviderModel

/-- The error assignment of the overlap check (org.py 292-299): the
error goes to whichever of date/end_date is in the form, or to status
when neither is. -/
def overlapErrors (hasDate hasEndDate : Bool) : CFormErrors :=
  { date := if hasDate then some CError.overlap else none,
    end_date := if hasEndDate then some CError.overlap else none,
    status := if !hasDate && !hasEndDate then some CError.overlap else none }

/-- The existing-row query of the overlap check (org.py 283-291): an
active commission of the same organisation whose interval touches the
form interval; others must already exclude the record being edited. -/
def overlapQuery (d : CFormData) (c : Commission) : Bool :=
  ((c.status == CStatus.CURRENT) || (c.status == CStatus.SUSPENDED)) &&
  (c.organisation_id == d.organisation_id) &&
  (match c.end_date with
   | none => true
   | some ce => decide (d.date ≤ ce)) &&
  (match d.end_date with
   | none => true
   | some e => decide (c.date ≤ e)) &&
  !c.deleted

/-- TestProviderModel.commission_onvalidation (org.py 236-318).
accepted is the provider's verification.accepted; today is the current
date; others are the other (non-self) org_commission rows.  The
function is pure: it only produces form errors, the record is not
written. -/
def commission_onvalidation (accepted : Bool) (today : Int)
    (others : List Commission) (d : CFormData) : CFormErrors :=
  if d.hasEndDate && (match d.end_date with
                      | some e => decide (e ≤ d.date)
                      | none => false) then
    { end_date := some CError.endNotAfterStart }
  else if ((d.status == CStatus.CURRENT) || (d.status == CStatus.SUSPENDED)) &&
          others.any (overlapQuery d) then
    overlapErrors d.hasDate d.hasEndDate
  else if d.hasStatus then
    let e0 : CFormErrors :=
      if d.status == CStatus.CURRENT && !accepted then { status := some CError.notVerified }
      else {}
    if (match d.end_date with
        | some e => decide (e ≤ today)
        | none => false) &&
       ((d.status == CStatus.CURRENT) || (d.status == CStatus.SUSPENDED)) then
      { e0 with status := some CError.pastEnd }
    else if d.status == CStatus.SUSPENDED && d.hasReason &&
            decide (d.status_reason.trim.length < 3) then
      { e0 with status_reason := some CError.reasonRequired }
    else e0
  else {}

end TestProviderModel

/-- The update dict built by commission_onaccept: an optional new value
for each field it may touch (some none clears a nullable field). -/
structure CUpdate where
  status : Option CStatus := none
  status_reason : Option (Option CReason) := none
  status_date : Option (Option Int) := none
  prev_status : Option (Option CStatus) := none
deriving DecidableEq

/-- Application of a CUpdate to an org_commission row
(record.update_record in commission_onaccept). -/
def applyCUpdate (r : Commission) (u : CUpdate) : Commission :=
  { organisation_id := r.organisation_id,
    date := r.date,
    end_date := r.end_date,
    status := u.status.getD r.status,
    prev_status := u.prev_status.getD r.prev_status,
    status_date := u.status_date.getD r.status_date,
    status_reason := u.status_reason.getD r.status_reason,
    deleted := r.deleted }

namespace TestProviderModel

/-- TestProviderModel.commission_onaccept (org.py 321-385), record part.
accepted is the provider's verification.accepted.  Returns the updated
row together with the status_change flag that triggers the
TestStation.update_all cascade and the provider notification; the
result is none when the source would raise: with an accepted provider
the code evaluates record.end_date < today, which is a TypeError in
Python when end_date is None. -/
def commission_onaccept (accepted : Bool) (today : Int) (r : Commission) :
    Option (Commission × Bool) :=
  let update? : Option CUpdate :=
    if accepted then
      match r.end_date with
      | none => none
      | some e =>
          if e < today then some { status := some CStatus.EXPIRED, status_reason := some none }
          else some {}
    else if r.status == CStatus.CURRENT then
      some { status := some CStatus.SUSPENDED, status_reason := some (some CReason.NV) }
    else if (r.status == CStatus.CURRENT) || (r.status == CStatus.REVOKED) ||
            (r.status == CStatus.EXPIRED) then
      some { status_reason := some none }
    else some {}
  match update? with
  | none => none
  | some u =>
      let new_status := u.status.getD r.status
      let status_change := some new_status ≠ r.prev_status
      let r1 :=
        if u ≠ ({} : CUpdate) then
          let u1 := if status_change then
                      { u with status_date := some (some today),
                               prev_status := some (some new_status) }
                    else u
          applyCUpdate r u1
        else r
      some (r1, status_change)

end TestProviderModel

/-! ## Site approval (TestStationModel / TestStation, org.py 388-2144) -/

/-- An org_site_approval row (org.py 438-521). -/
@[ext]
structure Approval where
  organisation_id : Nat
  status : WfStatus
  mpav : RStatus
  hygiene : RStatus
  layout : RStatus
  public : Pub
  public_reason : Option PReason
  dhash : Option String
  advice : Option String
  deleted : Bool := false
deriving DecidableEq

/-- The workflow-relevant core fields of an approval record (everything
TestStation.approval_workflow and the public gate read or write, i.e.
the approval record without the hash, advice and meta fields). -/
structure ACore where
  status : WfStatus
  mpav : RStatus
  hygiene : RStatus
  layout : RStatus
  public : Pub
  public_reason : Option PReason
deriving DecidableEq, Fintype

/-- Projection of an approval row to its workflow core. -/
def coreOf (a : Approval) : ACore :=
  { status := a.status, mpav := a.mpav, hygiene := a.hygiene, layout := a.layout,
    public := a.public, public_reason := a.public_reason }

/-- The update dict assembled by TestStation.vhash / approval_workflow /
update_approval: an optional new value per field (some none clears a
nullable field). -/
structure AUpdate where
  status : Option WfStatus := none
  mpav : Option RStatus := none
  hygiene : Option RStatus := none
  layout : Option RStatus := none
  public : Option Pub := none
  public_reason : Option (Option PReason) := none
  dhash : Option (Option String) := none
deriving DecidableEq

/-- Application of an AUpdate to an approval row
(approval.update_record in update_approval). -/
def applyUpdate (a : Approval) (u : AUpdate) : Approval :=
  { organisation_id := a.organisation_id,
    status := u.status.getD a.status,
    mpav := u.mpav.getD a.mpav,
    hygiene := u.hygiene.getD a.hygiene,
    layout := u.layout.getD a.layout,
    public := u.public.getD a.public,
    public_reason := u.public_reason.getD a.public_reason,
    dhash := u.dhash.getD a.dhash,
    advice := a.advice,
    deleted := a.deleted }

/-- Application of an AUpdate to the workflow core (the dhash member is
ignored, it is not a core field). -/
def coreApply (c : ACore) (u : AUpdate) : ACore :=
  { status := u.status.getD c.status,
    mpav := u.mpav.getD c.mpav,
    hygiene := u.hygiene.getD c.hygiene,
    layout := u.layout.getD c.layout,
    public := u.public.getD c.public,
    public_reason := u.public_reason.getD c.public_reason }

/-- The fixed external state of one update_approval evaluation: the
verification hash freshly computed from the resolved facility location
(get_dhash over location id, parent, street, postcode), whether the
acting user has the ORG_GROUP_ADMIN role, and whether the organisation
has a current commission. -/
structure SiteCtx where
  vhash : String
  isAdmin : Bool
  commissioned : Bool
deriving DecidableEq

/-- Python truthiness-and-difference test of the stored hash in
TestStation.vhash: dhash and dhash != vhash. -/
def dhash_changed (stored : Option String) (vhash : String) : Bool :=
  match stored with
  | some d => (d != "") && (d != vhash)
  | none => false

namespace TestStation

/-- The guard of the integrity branch of TestStation.vhash
(org.py 1670-1671): previously APPROVED, stored hash present and
different, and the user is not ORG_GROUP_ADMIN. -/
def hitB (ctx : SiteCtx) (a : Approval) : Bool :=
  (a.status == WfStatus.APPROVED) && dhash_changed a.dhash ctx.vhash && !ctx.isAdmin

/-- The downgrade update built by the integrity branch of
TestStation.vhash (org.py 1673-1688): public N, previously APPROVED
dimensions demoted to REVIEW, status REVIEW unless a dimension is under
revision. -/
def vhash_reset (c : ACore) : AUpdate :=
  { public := some Pub.N,
    mpav := if c.mpav == RStatus.APPROVED then some RStatus.REVIEW else none,
    hygiene := if c.hygiene == RStatus.APPROVED then some RStatus.REVIEW else none,
    layout := if c.layout == RStatus.APPROVED then some RStatus.REVIEW else none,
    status := some (if (c.mpav == RStatus.REVISE) || (c.hygiene == RStatus.REVISE) ||
                       (c.layout == RStatus.REVISE)
                    then WfStatus.REVISE else WfStatus.REVIEW) }

/-- TestStation.vhash (org.py 1625-1693): returns the downgrade update
(or none) and the freshly computed location hash. -/
def vhash (ctx : SiteCtx) (a : Approval) : Option AUpdate × String :=
  (if hitB ctx a then some (vhash_reset (coreOf a)) else none, ctx.vhash)

/-- TestStation.approval_workflow (org.py 1696-1760): the pure
transition from current status and review dimensions to the update
dict and the notification flag. -/
def approval_workflow (c : ACore) : AUpdate × Bool :=
  let allA := (c.mpav == RStatus.APPROVED) && (c.hygiene == RStatus.APPROVED) &&
              (c.layout == RStatus.APPROVED)
  let anyREVIEW := (c.mpav == RStatus.REVIEW) || (c.hygiene == RStatus.REVIEW) ||
                   (c.layout == RStatus.REVIEW)
  let anyREVISE := (c.mpav == RStatus.REVISE) || (c.hygiene == RStatus.REVISE) ||
                   (c.layout == RStatus.REVISE)
  match c.status with
  | WfStatus.REVISE =>
      if allA then ({ public := some Pub.Y, status := some WfStatus.APPROVED }, true)
      else if anyREVIEW then ({ public := some Pub.N, status := some WfStatus.REVIEW }, false)
      else ({ public := some Pub.N }, false)
  | WfStatus.READY =>
      if allA then
        ({ public := some Pub.N, mpav := some RStatus.REVIEW, hygiene := some RStatus.REVIEW,
           layout := some RStatus.REVIEW, status := some WfStatus.REVIEW }, false)
      else
        ({ public := some Pub.N,
           mpav := if c.mpav == RStatus.REVISE then some RStatus.REVIEW else none,
           hygiene := if c.hygiene == RStatus.REVISE then some RStatus.REVIEW else none,
           layout := if c.layout == RStatus.REVISE then some RStatus.REVIEW else none,
           status := some WfStatus.REVIEW }, false)
  | WfStatus.REVIEW =>
      if allA then ({ public := some Pub.Y, status := some WfStatus.APPROVED }, true)
      else if anyREVIEW then ({ public := some Pub.N }, false)
      else if anyREVISE then ({ public := some Pub.N, status := some WfStatus.REVISE }, true)
      else ({}, false)
  | WfStatus.APPROVED =>
      if anyREVIEW then ({ public := some Pub.N, status := some WfStatus.REVIEW }, false)
      else if anyREVISE then ({ public := some Pub.N, status := some WfStatus.REVISE }, true)
      else ({}, false)

/-- The public-reason gate of update_approval (org.py 1789-1805): sets
public_reason for a public=N update, and applies the commission gate to
a public=Y update (or to an approval that is already public). -/
def update_gate (commissioned : Bool) (aPublic : Pub) (u : AUpdate) : AUpdate :=
  match u.public with
  | some Pub.N =>
      let r := if u.status == some WfStatus.REVISE then PReason.REVISE else PReason.REVIEW
      { u with public_reason := some (some r) }
  | some Pub.Y =>
      if commissioned then { u with public_reason := some none }
      else { u with public := some Pub.N, public_reason := some (some PReason.COMMISSION) }
  | none =>
      if aPublic == Pub.Y then
        if commissioned then { u with public_reason := some none }
        else { u with public := some Pub.N, public_reason := some (some PReason.COMMISSION) }
      else u

/-- Membership in the automatic public_reason codes of org.py 1808-1809
(NEW, COMMISSION, REVISE, REVIEW); a null reason is not in that set. -/
def isAutoReason (r : Option PReason) : Bool :=
  match r with
  | some PReason.NEW => true
  | some PReason.COMMISSION => true
  | some PReason.REVISE => true
  | some PReason.REVIEW => true
  | _ => false

/-- The manual-unlisting guard of update_approval (org.py 1807-1811):
public=N with a non-automatic reason must not be overwritten, so the
public keys are popped from the update. -/
def update_popguard (aPublic : Pub) (aReason : Option PReason) (u : AUpdate) : AUpdate :=
  if (aPublic == Pub.N) && !isAutoReason aReason then
    { u with public := none, public_reason := none }
  else u

/-- TestStation.update_approval (org.py 1763-1843), record part.
Returns the updated approval row, the public-changed flag (screen
message) and the notify flag.  ctx.commissioned is the resolved
commissioned argument (looked up from the current commission when
omitted).  The update dict always receives a dhash key (org.py
1816-1818), so the record is always written and
update_approval_history is always invoked afterwards. -/
def update_approval (ctx : SiteCtx) (a : Approval) : Approval × Bool × Bool :=
  let vres := vhash ctx a
  let wf := match vres.1 with
            | some u => (u, false)
            | none => approval_workflow (coreOf a)
  let u1 := update_gate ctx.commissioned a.public wf.1
  let u2 := update_popguard a.public a.public_reason u1
  let public_changed := match u2.public with
                        | some p => p != a.public
                        | none => false
  let status1 := u2.status.getD a.status
  let u3 := { u2 with dhash := some (if status1 == WfStatus.APPROVED then some vres.2 else none) }
  (applyUpdate a u3, public_changed, wf.2)

end TestStation

/-- One combined core step of update_approval: the integrity branch
(when hit) or the workflow, followed by the public gate and the
manual-unlisting guard, applied to the workflow core. -/
def coreFinalUpd (hit : Bool) (commissioned : Bool) (c : ACore) : AUpdate :=
  let wf := if hit then (TestStation.vhash_reset c, false) else TestStation.approval_workflow c
  TestStation.update_popguard c.public c.public_reason
    (TestStation.update_gate commissioned c.public wf.1)

/-- The workflow-core transition performed by one update_approval call. -/
def stepCore (commissioned : Bool) (hit : Bool) (c : ACore) : ACore :=
  coreApply c (coreFinalUpd hit commissioned c)

namespace TestStation

/-- TestStation.update_all (org.py 1991-2040): bulk update of the
public flag across all approval rows of an organisation.  A transition
to Y is restricted to fully approved rows whose public_reason matches
the given reason; a transition to N stamps the reason.  reason is
required by the source for the N-direction (RuntimeError otherwise);
it is a single code here (the cascades pass COMMISSION). -/
def update_all (organisation_id : Nat) (pub : Pub) (reason : PReason)
    (apprs : List Approval) : List Approval :=
  apprs.map (fun a =>
    if (a.organisation_id == organisation_id) && (a.public != pub) && !a.deleted &&
       ((pub != Pub.Y) ||
        ((a.status == WfStatus.APPROVED) && (a.mpav == RStatus.APPROVED) &&
         (a.hygiene == RStatus.APPROVED) && (a.layout == RStatus.APPROVED) &&
         (a.public_reason == some reason))) then
      if pub == Pub.Y then { a with public := Pub.Y, public_reason := none }
      else { a with public := Pub.N, public_reason := some reason }
    else a)

end TestStation

namespace TestProvider

/-- TestProvider.suspend_commission (org.py 1209-1241): sets all
CURRENT commissions of the organisation to SUSPENDED with the given
reason, then unconditionally cascades update_all(public=N,
reason=COMMISSION) over the organisation's approval rows. -/
def suspend_commission (organisation_id : Nat) (reason : CReason) (today : Int)
    (cs : List Commission) (apprs : List Approval) : List Commission × List Approval :=
  let cs1 := cs.map (fun c =>
    if (c.organisation_id == organisation_id) && (c.status == CStatus.CURRENT) &&
       !c.deleted then
      { c with status := CStatus.SUSPENDED, status_date := some today,
               status_reason := some reason }
    else c)
  (cs1, TestStation.update_all organisation_id Pub.N PReason.COMMISSION apprs)

/-- TestProvider.reinstate_commission (org.py 1244-1278): sets all
SUSPENDED commissions of the organisation with matching reason back to
CURRENT (clearing the reason), then unconditionally cascades
update_all(public=Y, reason=COMMISSION).  Note that neither the
commission update nor the cascade checks date or end_date. -/
def reinstate_commission (organisation_id : Nat) (reason : CReason) (today : Int)
    (cs : List Commission) (apprs : List Approval) : List Commission × List Approval :=
  let cs1 := cs.map (fun c =>
    if (c.organisation_id == organisation_id) && (c.status == CStatus.SUSPENDED) &&
       (c.status_reason == some reason) && !c.deleted then
      { c with status := CStatus.CURRENT, status_date := some today, status_reason := none }
    else c)
  (cs1, TestStation.update_all organisation_id Pub.Y PReason.COMMISSION apprs)

/-- TestProvider.current_commission (org.py 733-763): whether the
organisation has a commission with status CURRENT whose date interval
covers today. -/
def current_commission_exists (organisation_id : Nat) (today : Int)
    (cs : List Commission) : Bool :=
  cs.any (fun c =>
    (c.organisation_id == organisation_id) && (c.status == CStatus.CURRENT) &&
    decide (c.date ≤ today) &&
    (match c.end_date with
     | some e => decide (today ≤ e)
     | none => true) &&
    !c.deleted)

end TestProvider

/-- The commission-gate visibility invariant claimed by the
specification: every live approval row of the organisation that is
listed publicly is backed by a CURRENT commission covering today. -/
def public_implies_commissioned (organisation_id : Nat) (today : Int)
    (cs : List Commission) (apprs : List Approval) : Bool :=
  apprs.all (fun a =>
    !((a.organisation_id == organisation_id) && (a.public == Pub.Y) && !a.deleted) ||
    TestProvider.current_commission_exists organisation_id today cs)

/-! ## Approval history (org.py 528-599, 1846-1883) -/

/-- An org_site_approval_status row: the timestamp plus the snapshot of
the approval status fields (site_approval_status_fields, org.py
607-620). -/
structure HistRow where
  site_id : Nat
  timestmp : Int
  status : WfStatus
  mpav : RStatus
  hygiene : RStatus
  layout : RStatus
  public : Pub
  public_reason : Option PReason
  advice : Option String
deriving DecidableEq

namespace TestStation

/-- The history entry written for an approval record:
{fn: approval[fn] for fn in status_fields} plus site_id and timestmp. -/
def history_entry (site_id : Nat) (timestmp : Int) (a : Approval) : HistRow :=
  { site_id := site_id, timestmp := timestmp, status := a.status, mpav := a.mpav,
    hygiene := a.hygiene, layout := a.layout, public := a.public,
    public_reason := a.public_reason, advice := a.advice }

/-- The change test of update_approval_history (org.py 1872):
any(prev[fn] != approval[fn] for fn in status_fields). -/
def statusFieldsDiffer (p : HistRow) (a : Approval) : Bool :=
  (p.status != a.status) || (p.mpav != a.mpav) || (p.hygiene != a.hygiene) ||
  (p.layout != a.layout) || (p.public != a.public) ||
  (p.public_reason != a.public_reason) || (p.advice != a.advice)

/-- TestStation.update_approval_history (org.py 1846-1883).  The
history list is kept newest-first (the source selects the previous
entry with orderby ~timestmp).  When the status fields differ from the
newest entry, a new entry is inserted, except that an entry with the
same timestamp is updated in place (its timestmp is not in the update
dict, so it is kept). -/
def update_approval_history (site_id : Nat) (now : Int) (a : Approval)
    (hist : List HistRow) : List HistRow :=
  match hist with
  | [] => [history_entry site_id now a]
  | p :: rest =>
      if statusFieldsDiffer p a then
        if p.timestmp == now then
          { history_entry site_id now a with timestmp := p.timestmp } :: rest
        else
          history_entry site_id now a :: p :: rest
      else p :: rest

end TestStation

namespace TestStationModel

/-- TestStationModel.site_approval_onaccept (org.py 623-664), record
part: fills in a missing public_reason for an unlisted site with
OVERRIDE, clears the reason for a listed site, and corrects a stale
organisation_id (actual_org is the facility's organisation). -/
def site_approval_onaccept (actual_org : Nat) (a : Approval) : Approval :=
  let ur : Option (Option PReason) :=
    if (a.public == Pub.N) && (a.public_reason == none) then some (some PReason.OVERRIDE)
    else if a.public == Pub.Y then some none
    else none
  let uo : Option Nat := if a.organisation_id != actual_org then some actual_org else none
  { a with public_reason := ur.getD a.public_reason,
           organisation_id := uo.getD a.organisation_id }

end TestStationModel

/-! ## Exhaustive enumeration of the workflow core -/

/-- All site approval statuses. -/
def allWf : List WfStatus := [WfStatus.REVISE, WfStatus.READY, WfStatus.REVIEW, WfStatus.APPROVED]

/-- All review-dimension statuses. -/
def allRv : List RStatus := [RStatus.REVISE, RStatus.REVIEW, RStatus.APPROVED]

/-- Both public flags. -/
def allPub : List Pub := [Pub.Y, Pub.N]

/-- All public_reason values (including null). -/
def allPRs : List (Option PReason) :=
  [none, some PReason.NEW, some PReason.COMMISSION, some PReason.REVISE,
   some PReason.REVIEW, some PReason.OVERRIDE]

/-- Both booleans. -/
def allB : List Bool := [true, false]

/-- Exhaustive boolean check of a property of one or two core steps,
nested per field so that its evaluation stays shallow. -/
def stepCheck (f : ACore → Bool → Bool → Bool) : Bool :=
  allWf.all fun s => allRv.all fun m => allRv.all fun hy => allRv.all fun ly =>
  allPub.all fun p => allPRs.all fun r => allB.all fun hit => allB.all fun k =>
    f { status := s, mpav := m, hygiene := hy, layout := ly, public := p, public_reason := r }
      hit k

/-- Evaluation forcing for a workflow status: continuation-passing case
split, so that the continuation receives a literal constructor. -/
def forceW (s : WfStatus) (f : WfStatus → Bool) : Bool :=
  match s with
  | WfStatus.REVISE => f WfStatus.REVISE
  | WfStatus.READY => f WfStatus.READY
  | WfStatus.REVIEW => f WfStatus.REVIEW
  | WfStatus.APPROVED => f WfStatus.APPROVED

/-- Evaluation forcing for a review status. -/
def forceR (s : RStatus) (f : RStatus → Bool) : Bool :=
  match s with
  | RStatus.REVISE => f RStatus.REVISE
  | RStatus.REVIEW => f RStatus.REVIEW
  | RStatus.APPROVED => f RStatus.APPROVED

/-- Evaluation forcing for a public flag. -/
def forceP (p : Pub) (f : Pub → Bool) : Bool :=
  match p with
  | Pub.Y => f Pub.Y
  | Pub.N => f Pub.N

/-- Evaluation forcing for an optional public reason. -/
def forcePR (r : Option PReason) (f : Option PReason → Bool) : Bool :=
  match r with
  | none => f none
  | some PReason.NEW => f (some PReason.NEW)
  | some PReason.COMMISSION => f (some PReason.COMMISSION)
  | some PReason.REVISE => f (some PReason.REVISE)
  | some PReason.REVIEW => f (some PReason.REVIEW)
  | some PReason.OVERRIDE => f (some PReason.OVERRIDE)

/-- Evaluation forcing for a whole workflow core: the continuation
receives a core whose fields are all literal constructors. -/
def forceCore (c : ACore) (f : ACore → Bool) : Bool :=
  match c with
  | ACore.mk s m hy ly p r =>
      forceW s fun s1 => forceR m fun m1 => forceR hy fun hy1 => forceR ly fun ly1 =>
      forceP p fun p1 => forcePR r fun r1 =>
        f (ACore.mk s1 m1 hy1 ly1 p1 r1)

/-- One-step stability check for a core value c1 (intended for values
in the image of stepCore): the next step preserves the review
dimensions and public flag, moves the status at most from REVISE to
REVIEW, moves the public reason at most from REVISE to REVIEW, and the
step after that is the identity.  Written with constructor matches so
that each step result is evaluated once. -/
def stabNext (k : Bool) (c1 : ACore) : Bool :=
  forceCore (stepCore k false c1) fun c2 =>
    (c2.mpav == c1.mpav) && (c2.hygiene == c1.hygiene) && (c2.layout == c1.layout) &&
    (c2.public == c1.public) &&
    ((c2.status == c1.status) ||
     ((c1.status == WfStatus.REVISE) && (c2.status == WfStatus.REVIEW))) &&
    ((c2.public_reason == c1.public_reason) ||
     ((c1.public_reason == some PReason.REVISE) && (c2.public_reason == some PReason.REVIEW))) &&
    (forceCore (stepCore k false c2) fun c3 => c3 == c2)

/-- Stability check after an arbitrary first step. -/
def stabCheckF (c : ACore) (hit k : Bool) : Bool :=
  forceCore (stepCore k hit c) fun c1 => stabNext k c1

/-- Check of the commission gate: a step result can only be public
when commissioned. -/
def gateCheckF (c : ACore) (hit k : Bool) : Bool :=
  !((stepCore k hit c).public == Pub.Y) || k

/-- Check of the integrity-branch demotions. -/
def hitCheckF (c : ACore) (_hit k : Bool) : Bool :=
  forceCore (stepCore k true c) fun c1 =>
    (c1.public == Pub.N) &&
    (!(c.mpav == RStatus.APPROVED) || (c1.mpav == RStatus.REVIEW)) &&
    (!(c.hygiene == RStatus.APPROVED) || (c1.hygiene == RStatus.REVIEW)) &&
    (!(c.layout == RStatus.APPROVED) || (c1.layout == RStatus.REVIEW)) &&
    (c1.status == (if (c.mpav == RStatus.REVISE) || (c.hygiene == RStatus.REVISE) ||
               (c.layout == RStatus.REVISE)
            then WfStatus.REVISE else WfStatus.REVIEW))

/-! ## Helper lemmas -/

/-- The record written by update_approval always carries the refreshed
dhash: the stored hash equals the fresh location hash exactly when the
resulting status is APPROVED, and is cleared otherwise. -/
theorem update_approval_dhash (ctx : SiteCtx) (a : Approval) :
    (TestStation.update_approval ctx a).1.dhash =
      (if (TestStation.update_approval ctx a).1.status == WfStatus.APPROVED
       then some ctx.vhash else none) := rfl

/-- update_approval leaves the advice field unchanged. -/
theorem update_approval_advice (ctx : SiteCtx) (a : Approval) :
    (TestStation.update_approval ctx a).1.advice = a.advice := rfl

/-- update_approval leaves the organisation_id field unchanged. -/
theorem update_approval_org (ctx : SiteCtx) (a : Approval) :
    (TestStation.update_approval ctx a).1.organisation_id = a.organisation_id := rfl

/-- update_approval leaves the deleted flag unchanged. -/
theorem update_approval_deleted (ctx : SiteCtx) (a : Approval) :
    (TestStation.update_approval ctx a).1.deleted = a.deleted := rfl

/-- A second update_approval call never takes the integrity branch: the
first call either stored the fresh hash (status APPROVED) or cleared
the stored hash. -/
theorem hitB_update_approval (ctx : SiteCtx) (a : Approval) :
    TestStation.hitB ctx (TestStation.update_approval ctx a).1 = false := by
  have h := update_approval_dhash ctx a
  unfold TestStation.hitB
  rw [h]
  by_cases hs : (TestStation.update_approval ctx a).1.status = WfStatus.APPROVED
  · simp [hs, dhash_changed]
  · simp [hs, dhash_changed]

/-- The workflow core of the record written by update_approval is the
combined core step (integrity branch or workflow, then gate and guard)
applied to the workflow core of the input record. -/
theorem coreOf_update_approval (ctx : SiteCtx) (a : Approval) :
    coreOf (TestStation.update_approval ctx a).1 =
      stepCore ctx.commissioned (TestStation.hitB ctx a) (coreOf a) := by
  by_cases hb : TestStation.hitB ctx a
  · simp [TestStation.update_approval, TestStation.vhash, stepCore, coreFinalUpd, hb,
          coreOf, coreApply, applyUpdate]
  · simp [TestStation.update_approval, TestStation.vhash, stepCore, coreFinalUpd, hb,
          coreOf, coreApply, applyUpdate]


/-- Every status is in the enumeration allWf. -/
theorem mem_allWf (s : WfStatus) : s ∈ allWf := by cases s <;> simp [allWf]

/-- Every review status is in the enumeration allRv. -/
theorem mem_allRv (m : RStatus) : m ∈ allRv := by cases m <;> simp [allRv]

/-- Every public flag is in the enumeration allPub. -/
theorem mem_allPub (p : Pub) : p ∈ allPub := by cases p <;> simp [allPub]

/-- Every public_reason value is in the enumeration allPRs. -/
theorem mem_allPRs (r : Option PReason) : r ∈ allPRs := by
  rcases r with _ | pr
  · simp [allPRs]
  · cases pr <;> simp [allPRs]

/-- Every boolean is in the enumeration allB. -/
theorem mem_allB (b : Bool) : b ∈ allB := by cases b <;> simp [allB]

/-- A passed exhaustive check holds for every core and flag pair. -/
theorem stepCheck_forall (f : ACore → Bool → Bool → Bool) (h : stepCheck f = true) :
    ∀ (c : ACore) (hit k : Bool), f c hit k = true := by
  intro c hit k
  obtain ⟨s, m, hy, ly, p, r⟩ := c
  unfold stepCheck at h
  simp only [List.all_eq_true] at h
  exact h s (mem_allWf s) m (mem_allRv m) hy (mem_allRv hy) ly (mem_allRv ly)
    p (mem_allPub p) r (mem_allPRs r) hit (mem_allB hit) k (mem_allB k)


set_option maxHeartbeats 8000000 in
/-- The stability check passes exhaustively. -/
theorem stabCheck_true : stepCheck stabCheckF = true := by decide

set_option maxHeartbeats 8000000 in
/-- The commission-gate check passes exhaustively. -/
theorem gateCheck_true : stepCheck gateCheckF = true := by decide

set_option maxHeartbeats 8000000 in
/-- The integrity-branch check passes exhaustively. -/
theorem hitCheck_true : stepCheck hitCheckF = true := by decide

/-- Forcing a workflow status is just application. -/
theorem forceW_eq (s : WfStatus) (f : WfStatus → Bool) : forceW s f = f s := by
  cases s <;> rfl

/-- Forcing a review status is just application. -/
theorem forceR_eq (s : RStatus) (f : RStatus → Bool) : forceR s f = f s := by
  cases s <;> rfl

/-- Forcing a public flag is just application. -/
theorem forceP_eq (p : Pub) (f : Pub → Bool) : forceP p f = f p := by
  cases p <;> rfl

/-- Forcing a public reason is just application. -/
theorem forcePR_eq (r : Option PReason) (f : Option PReason → Bool) : forcePR r f = f r := by
  rcases r with _ | pr
  · rfl
  · cases pr <;> rfl

/-- Forcing a core is just application. -/
theorem forceCore_eq (c : ACore) (f : ACore → Bool) : forceCore c f = f c := by
  rcases c with ⟨s, m, hy, ly, p, r⟩
  simp [forceCore, forceW_eq, forceR_eq, forceP_eq, forcePR_eq]

/-- Unfolding of a passed stability check at one core value. -/
theorem stabNext_prop (k : Bool) (v : ACore) (h : stabNext k v = true) :
    (stepCore k false v).mpav = v.mpav ∧
    (stepCore k false v).hygiene = v.hygiene ∧
    (stepCore k false v).layout = v.layout ∧
    (stepCore k false v).public = v.public ∧
    ((stepCore k false v).status = v.status ∨
      (v.status = WfStatus.REVISE ∧ (stepCore k false v).status = WfStatus.REVIEW)) ∧
    ((stepCore k false v).status = WfStatus.APPROVED ↔ v.status = WfStatus.APPROVED) ∧
    ((stepCore k false v).public_reason = v.public_reason ∨
      (v.public_reason = some PReason.REVISE ∧
       (stepCore k false v).public_reason = some PReason.REVIEW)) ∧
    stepCore k false (stepCore k false v) = stepCore k false v := by
  unfold stabNext at h
  simp only [forceCore_eq] at h
  have h2 := h
  simp only [Bool.and_eq_true, Bool.or_eq_true, beq_iff_eq] at h2
  obtain ⟨⟨⟨⟨⟨⟨h1, hb2⟩, h3⟩, h4⟩, h5⟩, h6⟩, h7⟩ := h2
  refine ⟨h1, hb2, h3, h4, h5, ?_, h6, h7⟩
  rcases h5 with heq | ⟨hrev, hrw⟩
  · rw [heq]
  · constructor
    · intro hx
      rw [hrw] at hx
      exact absurd hx (by simp)
    · intro hx
      rw [hrev] at hx
      exact absurd hx (by simp)

/-- Stability of the workflow core after one arbitrary step: the
second step preserves the review dimensions and the public flag,
changes the status at most from REVISE to REVIEW (in particular never
changes whether the status is APPROVED), changes the public reason at
most from REVISE to REVIEW, and a third step is the identity on the
core. -/
theorem stepCore_stability (c : ACore) (hit k : Bool) :
    (stepCore k false (stepCore k hit c)).mpav = (stepCore k hit c).mpav ∧
    (stepCore k false (stepCore k hit c)).hygiene = (stepCore k hit c).hygiene ∧
    (stepCore k false (stepCore k hit c)).layout = (stepCore k hit c).layout ∧
    (stepCore k false (stepCore k hit c)).public = (stepCore k hit c).public ∧
    ((stepCore k false (stepCore k hit c)).status = (stepCore k hit c).status ∨
      ((stepCore k hit c).status = WfStatus.REVISE ∧
       (stepCore k false (stepCore k hit c)).status = WfStatus.REVIEW)) ∧
    ((stepCore k false (stepCore k hit c)).status = WfStatus.APPROVED ↔
      (stepCore k hit c).status = WfStatus.APPROVED) ∧
    ((stepCore k false (stepCore k hit c)).public_reason = (stepCore k hit c).public_reason ∨
      ((stepCore k hit c).public_reason = some PReason.REVISE ∧
       (stepCore k false (stepCore k hit c)).public_reason = some PReason.REVIEW)) ∧
    stepCore k false (stepCore k false (stepCore k hit c)) =
      stepCore k false (stepCore k hit c) := by
  have hb : stabCheckF c hit k = true := stepCheck_forall stabCheckF stabCheck_true c hit k
  unfold stabCheckF at hb
  simp only [forceCore_eq] at hb
  exact stabNext_prop k (stepCore k hit c) hb

/-- Commission gate on the workflow core: a core step can only produce
(or keep) public = Y when commissioned is true. -/
theorem stepCore_public_gate (c : ACore) (hit k : Bool)
    (h : (stepCore k hit c).public = Pub.Y) : k = true := by
  have hb : gateCheckF c hit k = true := stepCheck_forall gateCheckF gateCheck_true c hit k
  unfold gateCheckF at hb
  simp only [Bool.or_eq_true, Bool.not_eq_true', beq_eq_false_iff_ne] at hb
  rcases hb with hb | hb
  · exact absurd h hb
  · exact hb

/-- Description of the integrity-branch step: public is forced to N,
every previously APPROVED dimension is demoted to REVIEW, and the
status becomes REVISE when some dimension is under revision, REVIEW
otherwise. -/
theorem stepCore_hit (c : ACore) (k : Bool) :
    (stepCore k true c).public = Pub.N ∧
    (c.mpav = RStatus.APPROVED → (stepCore k true c).mpav = RStatus.REVIEW) ∧
    (c.hygiene = RStatus.APPROVED → (stepCore k true c).hygiene = RStatus.REVIEW) ∧
    (c.layout = RStatus.APPROVED → (stepCore k true c).layout = RStatus.REVIEW) ∧
    (stepCore k true c).status =
      (if c.mpav = RStatus.REVISE ∨ c.hygiene = RStatus.REVISE ∨ c.layout = RStatus.REVISE
       then WfStatus.REVISE else WfStatus.REVIEW) := by
  have hb : hitCheckF c true k = true := stepCheck_forall hitCheckF hitCheck_true c true k
  unfold hitCheckF at hb
  simp only [forceCore_eq] at hb
  have h2 := hb
  simp only [Bool.and_eq_true, Bool.or_eq_true, Bool.not_eq_true', beq_iff_eq,
    beq_eq_false_iff_ne] at h2
  obtain ⟨⟨⟨⟨hp, hm⟩, hh⟩, hl⟩, hs⟩ := h2
  refine ⟨hp, ?_, ?_, ?_, ?_⟩
  · intro hx
    rcases hm with hm | hm
    · exact absurd hx hm
    · exact hm
  · intro hx
    rcases hh with hh | hh
    · exact absurd hx hh
    · exact hh
  · intro hx
    rcases hl with hl | hl
    · exact absurd hx hl
    · exact hl
  · simp only [or_assoc] at hs ⊢
    exact hs

/-! ## Claims -/

/-- C2 counterexample: for an organisation with no organisation-type
associations, the computed verification defaults are orgtype = N/A and
mgrinfo = ACCEPT, but accepted is False, not True as claimed: N/A is
not in {ACCEPT, VERIFIED}, so the acceptance conjunction fails. -/
theorem C2_counterexample :
    (TestProvider.add_verification_defaults [] none).orgtype = OrgStatus.NA ∧
    (TestProvider.add_verification_defaults [] none).mgrinfo = some MgrStatus.ACCEPT ∧
    ¬ (TestProvider.add_verification_defaults [] none).accepted = true := by
  refine ⟨rfl, rfl, ?_⟩
  intro h
  exact absurd h (by decide)

/-- C2 (amended): when the verification record is created with
computed defaults for an organisation that has no organisation-type
associations, the resulting record has orgtype = N/A,
mgrinfo = ACCEPT, and accepted = False, whatever check_mgrinfo would
return. -/
theorem C2_amended (chk : Option MgrStatus) :
    TestProvider.verification_defaults [] chk =
      { orgtype := OrgStatus.NA, mgrinfo := some MgrStatus.ACCEPT, accepted := false } ∧
    TestProvider.add_verification_defaults [] chk =
      { dhash := none, orgtype := OrgStatus.NA, mgrinfo := some MgrStatus.ACCEPT,
        accepted := false } := ⟨rfl, rfl⟩

/-- C4: after creation with computed defaults and after every
update_verification call, the stored accepted flag equals
(orgtype in {ACCEPT, VERIFIED}) and (mgrinfo in {ACCEPT, COMPLETE}),
evaluated on the stored orgtype and mgrinfo. -/
theorem C4_accepted_invariant (digest : String → String) (types : List OrgTypeRec)
    (chk : Option MgrStatus) (v : Verification) :
    (TestProvider.verification_defaults types chk).accepted =
      acceptedFormula (TestProvider.verification_defaults types chk).orgtype
        (TestProvider.verification_defaults types chk).mgrinfo ∧
    (TestProvider.add_verification_defaults types chk).accepted =
      acceptedFormula (TestProvider.add_verification_defaults types chk).orgtype
        (TestProvider.add_verification_defaults types chk).mgrinfo ∧
    (TestProvider.update_verification digest types chk v).1.accepted =
      acceptedFormula (TestProvider.update_verification digest types chk v).1.orgtype
        (TestProvider.update_verification digest types chk v).1.mgrinfo := by
  refine ⟨rfl, rfl, ?_⟩
  simp only [TestProvider.update_verification]
  split_ifs <;> simp_all [acceptedFormula, TestProvider.verification_defaults]

/-- C9: after site_approval_onaccept, a record that is not publicly
listed never has an empty public_reason (an empty reason is replaced
by OVERRIDE), and a publicly listed record has its public_reason
cleared. -/
theorem C9_public_reason (actual_org : Nat) (a : Approval) :
    ((TestStationModel.site_approval_onaccept actual_org a).public = Pub.N →
      (TestStationModel.site_approval_onaccept actual_org a).public_reason ≠ none) ∧
    ((TestStationModel.site_approval_onaccept actual_org a).public = Pub.Y →
      (TestStationModel.site_approval_onaccept actual_org a).public_reason = none) := by
  obtain ⟨org, s, m, hy, ly, p, r, dh, adv, del⟩ := a
  cases p <;> rcases r with _ | pr <;>
    simp [TestStationModel.site_approval_onaccept]

/-- C9 witness: a concrete unlisted record with a null reason gets a
non-null reason. -/
theorem C9_public_reason_witness :
    (TestStationModel.site_approval_onaccept 1
      { organisation_id := 1, status := WfStatus.REVISE, mpav := RStatus.REVISE,
        hygiene := RStatus.REVISE, layout := RStatus.REVISE, public := Pub.N,
        public_reason := none, dhash := none, advice := none }).public_reason ≠ none :=
  (C9_public_reason 1
    { organisation_id := 1, status := WfStatus.REVISE, mpav := RStatus.REVISE,
      hygiene := RStatus.REVISE, layout := RStatus.REVISE, public := Pub.N,
      public_reason := none, dhash := none, advice := none }).1 rfl

/-- C10: get_dhash depends only on the truthy values of its arguments:
for any two argument lists whose elements are pairwise either equal or
both falsy, the hash strings are equal (whatever the digest function
is), because both serialise every falsy element as three asterisks. -/
theorem C10_dhash_falsy (digest : String → String) (vs ws : List PyVal)
    (h : List.Forall₂
      (fun v w => v = w ∨ (pyTruthy v = false ∧ pyTruthy w = false)) vs ws) :
    get_dhash digest vs = get_dhash digest ws := by
  have hm : vs.map (fun v => if pyTruthy v then pyStr v else "***") =
      ws.map (fun v => if pyTruthy v then pyStr v else "***") := by
    induction h with
    | nil => rfl
    | cons hvw htl ih =>
        rcases hvw with heq | ⟨hv, hw⟩
        · simp [ih, heq]
        · simp [ih, hv, hw]
  unfold get_dhash dhashSerial
  rw [hm]

/-- C10 witness: changing a hashed value from the integer 0 to the
empty string does not change the hash. -/
theorem C10_dhash_falsy_witness :
    get_dhash id [PyVal.int 0] = get_dhash id [PyVal.str ""] :=
  C10_dhash_falsy id [PyVal.int 0] [PyVal.str ""]
    (List.Forall₂.cons (Or.inr ⟨by decide, by decide⟩) List.Forall₂.nil)

/-- C7 counterexample: a CURRENT commission whose end_date (5) lies
strictly before today (10) but whose provider is not verified is set
to SUSPENDED with reason N/V by commission_onaccept, not to EXPIRED as
claimed: the expiry check only runs when the provider verification is
accepted. -/
theorem C7_counterexample :
    (TestProviderModel.commission_onaccept false 10
      { organisation_id := 1, date := 0, end_date := some 5, status := CStatus.CURRENT,
        prev_status := some CStatus.CURRENT, status_date := none,
        status_reason := none }).map (fun x => (x.1.status, x.1.status_reason)) =
      some (CStatus.SUSPENDED, some CReason.NV) ∧
    CStatus.SUSPENDED ≠ CStatus.EXPIRED := by decide

/-- C7 (amended): when the provider verification is accepted,
commission_onaccept sets a commission whose end_date lies strictly in
the past to EXPIRED and clears the status reason, regardless of the
prior status; when the verification is not accepted, it sets a CURRENT
commission to SUSPENDED with reason N/V. -/
theorem C7_amended (today : Int) (r : Commission) (e : Int) :
    (r.end_date = some e → e < today →
      (TestProviderModel.commission_onaccept true today r).map
        (fun x => (x.1.status, x.1.status_reason)) = some (CStatus.EXPIRED, none)) ∧
    (r.status = CStatus.CURRENT →
      (TestProviderModel.commission_onaccept false today r).map
        (fun x => (x.1.status, x.1.status_reason)) =
        some (CStatus.SUSPENDED, some CReason.NV)) := by
  constructor
  · intro h1 h2
    simp only [TestProviderModel.commission_onaccept, h1, if_pos h2]
    split_ifs with ha
    all_goals simp_all [applyCUpdate]
    all_goals split_ifs with hb
    all_goals try rw [← hb]
    all_goals simp
  · intro h1
    simp only [TestProviderModel.commission_onaccept, h1]
    split_ifs with ha
    all_goals simp_all [applyCUpdate]
    all_goals split_ifs with hb
    all_goals try rw [← hb]
    all_goals simp

/-- C7 witness: a REVOKED commission with a past end date of a
verified provider is expired; a CURRENT commission of an unverified
provider is suspended with reason N/V. -/
theorem C7_amended_witness :
    (TestProviderModel.commission_onaccept true 10
      { organisation_id := 1, date := 0, end_date := some 5, status := CStatus.REVOKED,
        prev_status := some CStatus.REVOKED, status_date := none,
        status_reason := none }).map (fun x => (x.1.status, x.1.status_reason)) =
      some (CStatus.EXPIRED, none) ∧
    (TestProviderModel.commission_onaccept false 10
      { organisation_id := 1, date := 0, end_date := some 20, status := CStatus.CURRENT,
        prev_status := some CStatus.CURRENT, status_date := none,
        status_reason := none }).map (fun x => (x.1.status, x.1.status_reason)) =
      some (CStatus.SUSPENDED, some CReason.NV) :=
  ⟨(C7_amended 10
      { organisation_id := 1, date := 0, end_date := some 5, status := CStatus.REVOKED,
        prev_status := some CStatus.REVOKED, status_date := none,
        status_reason := none } 5).1 rfl (by decide),
   (C7_amended 10
      { organisation_id := 1, date := 0, end_date := some 20, status := CStatus.CURRENT,
        prev_status := some CStatus.CURRENT, status_date := none,
        status_reason := none } 0).2 rfl⟩

/-- A freshly written history entry never differs from the approval
record it was taken from, whatever its timestamp. -/
theorem statusFieldsDiffer_entry (site_id : Nat) (t : Int) (a : Approval) :
    TestStation.statusFieldsDiffer (TestStation.history_entry site_id t a) a = false := by
  simp [TestStation.statusFieldsDiffer, TestStation.history_entry]

/-- C8 counterexample: when a change is detected at the same timestamp
as the newest history row, update_approval_history overwrites that row
in place instead of appending: the history keeps its length, is
changed, and the original row is gone.  This refutes the claim that no
operation mutates an existing history row. -/
theorem C8_counterexample :
    (TestStation.update_approval_history 1 5
      { organisation_id := 1, status := WfStatus.READY, mpav := RStatus.REVISE,
        hygiene := RStatus.REVISE, layout := RStatus.REVISE, public := Pub.N,
        public_reason := some PReason.NEW, dhash := none, advice := none }
      [{ site_id := 1, timestmp := 5, status := WfStatus.REVISE, mpav := RStatus.REVISE,
         hygiene := RStatus.REVISE, layout := RStatus.REVISE, public := Pub.N,
         public_reason := some PReason.NEW, advice := none }]).length = 1 ∧
    TestStation.update_approval_history 1 5
      { organisation_id := 1, status := WfStatus.READY, mpav := RStatus.REVISE,
        hygiene := RStatus.REVISE, layout := RStatus.REVISE, public := Pub.N,
        public_reason := some PReason.NEW, dhash := none, advice := none }
      [{ site_id := 1, timestmp := 5, status := WfStatus.REVISE, mpav := RStatus.REVISE,
         hygiene := RStatus.REVISE, layout := RStatus.REVISE, public := Pub.N,
         public_reason := some PReason.NEW, advice := none }] ≠
      [{ site_id := 1, timestmp := 5, status := WfStatus.REVISE, mpav := RStatus.REVISE,
         hygiene := RStatus.REVISE, layout := RStatus.REVISE, public := Pub.N,
         public_reason := some PReason.NEW, advice := none }] ∧
    ({ site_id := 1, timestmp := 5, status := WfStatus.REVISE, mpav := RStatus.REVISE,
       hygiene := RStatus.REVISE, layout := RStatus.REVISE, public := Pub.N,
       public_reason := some PReason.NEW, advice := none } : HistRow) ∉
      TestStation.update_approval_history 1 5
        { organisation_id := 1, status := WfStatus.READY, mpav := RStatus.REVISE,
          hygiene := RStatus.REVISE, layout := RStatus.REVISE, public := Pub.N,
          public_reason := some PReason.NEW, dhash := none, advice := none }
        [{ site_id := 1, timestmp := 5, status := WfStatus.REVISE, mpav := RStatus.REVISE,
           hygiene := RStatus.REVISE, layout := RStatus.REVISE, public := Pub.N,
           public_reason := some PReason.NEW, advice := none }] := by decide

/-- C8 (amended): full case characterisation of the history writer.
The history never shrinks.  On first write it consists of exactly one
row carrying the live approval record's fields.  A detected change
(status fields differing from the newest row) at a timestamp different
from the newest row's appends exactly one new row carrying the live
record's fields, leaving every existing row untouched; a detected
change at the same timestamp as the newest row overwrites exactly that
row in place (keeping its timestamp), leaving the older rows
untouched; when no change is detected the history is returned
unchanged.  Whenever the history changes, its newest row carries
exactly the live approval record's status fields. -/
theorem C8_amended (site_id : Nat) (now : Int) (a : Approval) (hist : List HistRow) :
    hist.length ≤ (TestStation.update_approval_history site_id now a hist).length ∧
    (hist = [] →
      TestStation.update_approval_history site_id now a hist =
        [TestStation.history_entry site_id now a]) ∧
    (∀ p rest, hist = p :: rest → TestStation.statusFieldsDiffer p a = true →
      p.timestmp ≠ now →
      TestStation.update_approval_history site_id now a hist =
        TestStation.history_entry site_id now a :: hist) ∧
    (∀ p rest, hist = p :: rest → TestStation.statusFieldsDiffer p a = true →
      p.timestmp = now →
      TestStation.update_approval_history site_id now a hist =
        { TestStation.history_entry site_id now a with timestmp := p.timestmp } :: rest) ∧
    (∀ p rest, hist = p :: rest → TestStation.statusFieldsDiffer p a = false →
      TestStation.update_approval_history site_id now a hist = hist) ∧
    (∀ q, (TestStation.update_approval_history site_id now a hist).head? = some q →
      TestStation.update_approval_history site_id now a hist ≠ hist →
      TestStation.statusFieldsDiffer q a = false) := by
  rcases hist with _ | ⟨p, rest⟩
  · refine ⟨by simp [TestStation.update_approval_history], ?_, ?_, ?_, ?_, ?_⟩
    · intro _
      rfl
    · intro p rest h
      exact absurd h (by simp)
    · intro p rest h
      exact absurd h (by simp)
    · intro p rest h
      exact absurd h (by simp)
    · intro q hq _
      simp only [TestStation.update_approval_history, List.head?] at hq
      cases hq
      exact statusFieldsDiffer_entry site_id now a
  · simp only [TestStation.update_approval_history]
    split_ifs with hd ht
    · refine ⟨by simp, ?_, ?_, ?_, ?_, ?_⟩
      · intro h
        exact absurd h (by simp)
      · intro p1 rest1 hh _ hne
        cases hh
        exact absurd (beq_iff_eq.mp ht) hne
      · intro p1 rest1 hh _ _
        cases hh
        rfl
      · intro p1 rest1 hh hdf
        cases hh
        simp [hdf] at hd
      · intro q hq _
        simp only [List.head?] at hq
        cases hq
        exact statusFieldsDiffer_entry site_id p.timestmp a
    · refine ⟨by simp, ?_, ?_, ?_, ?_, ?_⟩
      · intro h
        exact absurd h (by simp)
      · intro p1 rest1 hh _ _
        cases hh
        rfl
      · intro p1 rest1 hh _ htm
        cases hh
        exact absurd (beq_iff_eq.mpr htm) ht
      · intro p1 rest1 hh hdf
        cases hh
        simp [hdf] at hd
      · intro q hq _
        simp only [List.head?] at hq
        cases hq
        exact statusFieldsDiffer_entry site_id now a
    · refine ⟨by simp, ?_, ?_, ?_, ?_, ?_⟩
      · intro h
        exact absurd h (by simp)
      · intro p1 rest1 hh hdf _
        cases hh
        exact absurd hdf hd
      · intro p1 rest1 hh hdf _
        cases hh
        exact absurd hdf hd
      · intro p1 rest1 hh _
        cases hh
        rfl
      · intro q hq hne
        exact absurd rfl hne

/-- C8 witness: with a newest entry at an earlier timestamp (5) and
changed fields, the call at timestamp 7 appends exactly one new row
carrying the live record's fields, keeping the old row. -/
theorem C8_amended_witness :
    TestStation.update_approval_history 1 7
        { organisation_id := 1, status := WfStatus.READY, mpav := RStatus.REVISE,
          hygiene := RStatus.REVISE, layout := RStatus.REVISE, public := Pub.N,
          public_reason := some PReason.NEW, dhash := none, advice := none }
        [{ site_id := 1, timestmp := 5, status := WfStatus.REVISE, mpav := RStatus.REVISE,
           hygiene := RStatus.REVISE, layout := RStatus.REVISE, public := Pub.N,
           public_reason := some PReason.NEW, advice := none }] =
      TestStation.history_entry 1 7
        { organisation_id := 1, status := WfStatus.READY, mpav := RStatus.REVISE,
          hygiene := RStatus.REVISE, layout := RStatus.REVISE, public := Pub.N,
          public_reason := some PReason.NEW, dhash := none, advice := none } ::
      [{ site_id := 1, timestmp := 5, status := WfStatus.REVISE, mpav := RStatus.REVISE,
         hygiene := RStatus.REVISE, layout := RStatus.REVISE, public := Pub.N,
         public_reason := some PReason.NEW, advice := none }] :=
  (C8_amended 1 7
    { organisation_id := 1, status := WfStatus.READY, mpav := RStatus.REVISE,
      hygiene := RStatus.REVISE, layout := RStatus.REVISE, public := Pub.N,
      public_reason := some PReason.NEW, dhash := none, advice := none }
    [{ site_id := 1, timestmp := 5, status := WfStatus.REVISE, mpav := RStatus.REVISE,
       hygiene := RStatus.REVISE, layout := RStatus.REVISE, public := Pub.N,
       public_reason := some PReason.NEW, advice := none }]).2.2.1
    { site_id := 1, timestmp := 5, status := WfStatus.REVISE, mpav := RStatus.REVISE,
      hygiene := RStatus.REVISE, layout := RStatus.REVISE, public := Pub.N,
      public_reason := some PReason.NEW, advice := none } [] rfl (by decide) (by decide)

/-- C3: commission_onvalidation rejects every commission form whose
saved data would overlap an existing non-deleted active
(CURRENT/SUSPENDED) commission of the same organisation, where a null
end date counts as an unbounded interval: some form error is always
produced.  The hook is pure, so an error means the save is aborted
with no state change. -/
theorem C3_overlap_rejected (accepted : Bool) (today : Int) (others : List Commission)
    (d : CFormData) (c : Commission) (hmem : c ∈ others)
    (horg : c.organisation_id = d.organisation_id) (hdel : c.deleted = false)
    (hact1 : c.status = CStatus.CURRENT ∨ c.status = CStatus.SUSPENDED)
    (hact2 : d.status = CStatus.CURRENT ∨ d.status = CStatus.SUSPENDED)
    (hov1 : ∀ ce, c.end_date = some ce → d.date ≤ ce)
    (hov2 : ∀ e, d.end_date = some e → c.date ≤ e) :
    TestProviderModel.commission_onvalidation accepted today others d ≠
      ({} : CFormErrors) := by
  unfold TestProviderModel.commission_onvalidation
  by_cases h1 : (d.hasEndDate && (match d.end_date with
                                  | some e => decide (e ≤ d.date)
                                  | none => false)) = true
  · rw [if_pos h1]
    intro heq
    exact absurd (congrArg CFormErrors.end_date heq) (by simp)
  · rw [if_neg h1]
    have hq : TestProviderModel.overlapQuery d c = true := by
      unfold TestProviderModel.overlapQuery
      simp only [Bool.and_eq_true, Bool.or_eq_true, beq_iff_eq, Bool.not_eq_true']
      refine ⟨⟨⟨⟨?_, horg⟩, ?_⟩, ?_⟩, hdel⟩
      · exact hact1
      · cases hce : c.end_date with
        | none => rfl
        | some ce => exact decide_eq_true (hov1 ce hce)
      · cases hde : d.end_date with
        | none => rfl
        | some e => exact decide_eq_true (hov2 e hde)
    have hB : (((d.status == CStatus.CURRENT) || (d.status == CStatus.SUSPENDED)) &&
        others.any (TestProviderModel.overlapQuery d)) = true := by
      simp only [Bool.and_eq_true]
      constructor
      · rcases hact2 with h | h <;> simp [h]
      · exact List.any_eq_true.mpr ⟨c, hmem, hq⟩
    rw [if_pos hB]
    have hne : ∀ b1 b2 : Bool, TestProviderModel.overlapErrors b1 b2 ≠ ({} : CFormErrors) := by
      decide
    exact hne d.hasDate d.hasEndDate

/-- C3 witness: two open-ended CURRENT commissions of the same
organisation overlap, and the form is rejected. -/
theorem C3_overlap_rejected_witness :
    TestProviderModel.commission_onvalidation true 0
      [{ organisation_id := 1, date := 0, end_date := none, status := CStatus.CURRENT,
         prev_status := none, status_date := none, status_reason := none }]
      { organisation_id := 1, date := 3, end_date := none, status := CStatus.CURRENT,
        status_reason := "", hasDate := true, hasEndDate := false, hasStatus := false,
        hasReason := false } ≠ ({} : CFormErrors) :=
  C3_overlap_rejected true 0
    [{ organisation_id := 1, date := 0, end_date := none, status := CStatus.CURRENT,
       prev_status := none, status_date := none, status_reason := none }]
    { organisation_id := 1, date := 3, end_date := none, status := CStatus.CURRENT,
      status_reason := "", hasDate := true, hasEndDate := false, hasStatus := false,
      hasReason := false }
    { organisation_id := 1, date := 0, end_date := none, status := CStatus.CURRENT,
      prev_status := none, status_date := none, status_reason := none }
    (by simp) rfl rfl (Or.inl rfl) (Or.inl rfl)
    (fun ce h => nomatch h) (fun e h => nomatch h)

/-- C6: for an APPROVED site with a stored location hash that differs
from the freshly computed one, update_approval (whose first step is
the vhash check) demotes every APPROVED review dimension to REVIEW,
forces public to N, and sets the status to REVIEW, or to REVISE when
some dimension was already under revision, provided the acting user
does not hold the override role. -/
theorem C6_vhash_demotion (ctx : SiteCtx) (a : Approval) (d : String)
    (hA : a.status = WfStatus.APPROVED) (hd : a.dhash = some d) (hd0 : d ≠ "")
    (hne : d ≠ ctx.vhash) (hadm : ctx.isAdmin = false) :
    (TestStation.update_approval ctx a).1.public = Pub.N ∧
    (a.mpav = RStatus.APPROVED →
      (TestStation.update_approval ctx a).1.mpav = RStatus.REVIEW) ∧
    (a.hygiene = RStatus.APPROVED →
      (TestStation.update_approval ctx a).1.hygiene = RStatus.REVIEW) ∧
    (a.layout = RStatus.APPROVED →
      (TestStation.update_approval ctx a).1.layout = RStatus.REVIEW) ∧
    (TestStation.update_approval ctx a).1.status =
      (if a.mpav = RStatus.REVISE ∨ a.hygiene = RStatus.REVISE ∨ a.layout = RStatus.REVISE
       then WfStatus.REVISE else WfStatus.REVIEW) := by
  have hhit : TestStation.hitB ctx a = true := by
    simp [TestStation.hitB, dhash_changed, hA, hd, hadm, hne, hd0]
  have hc := coreOf_update_approval ctx a
  rw [hhit] at hc
  have hp := stepCore_hit (coreOf a) ctx.commissioned
  rw [← hc] at hp
  exact hp

/-- C6 witness: a concrete APPROVED site with a changed address hash
is demoted: mixed dimensions give status REVISE, the APPROVED hygiene
dimension is moved to REVIEW, and the site is unlisted. -/
theorem C6_vhash_demotion_witness :
    (TestStation.update_approval { vhash := "new", isAdmin := false, commissioned := true }
      { organisation_id := 1, status := WfStatus.APPROVED, mpav := RStatus.REVISE,
        hygiene := RStatus.APPROVED, layout := RStatus.REVIEW, public := Pub.Y,
        public_reason := none, dhash := some "old", advice := none }).1.public = Pub.N ∧
    (TestStation.update_approval { vhash := "new", isAdmin := false, commissioned := true }
      { organisation_id := 1, status := WfStatus.APPROVED, mpav := RStatus.REVISE,
        hygiene := RStatus.APPROVED, layout := RStatus.REVIEW, public := Pub.Y,
        public_reason := none, dhash := some "old", advice := none }).1.hygiene =
      RStatus.REVIEW ∧
    (TestStation.update_approval { vhash := "new", isAdmin := false, commissioned := true }
      { organisation_id := 1, status := WfStatus.APPROVED, mpav := RStatus.REVISE,
        hygiene := RStatus.APPROVED, layout := RStatus.REVIEW, public := Pub.Y,
        public_reason := none, dhash := some "old", advice := none }).1.status =
      WfStatus.REVISE := by
  have h := C6_vhash_demotion { vhash := "new", isAdmin := false, commissioned := true }
    { organisation_id := 1, status := WfStatus.APPROVED, mpav := RStatus.REVISE,
      hygiene := RStatus.APPROVED, layout := RStatus.REVIEW, public := Pub.Y,
      public_reason := none, dhash := some "old", advice := none }
    "old" rfl rfl (by decide) (by decide) rfl
  refine ⟨h.1, h.2.2.1 rfl, ?_⟩
  have h5 := h.2.2.2.2
  simpa using h5

/-- C1 counterexample: the claimed visibility invariant (public = Y
implies a CURRENT commission covering today) is not preserved by
reinstate_commission.  Before the call, the organisation is unlisted
and holds one SUSPENDED commission with reason N/V whose end_date (10)
is already past (today = 20), so the invariant holds; the call makes
the commission CURRENT without checking its dates and re-publishes the
fully approved site, so afterwards the site is public while no CURRENT
commission covers today. -/
theorem C1_counterexample :
    public_implies_commissioned 1 20
      [{ organisation_id := 1, date := 0, end_date := some 10, status := CStatus.SUSPENDED,
         prev_status := some CStatus.SUSPENDED, status_date := some 15,
         status_reason := some CReason.NV }]
      [{ organisation_id := 1, status := WfStatus.APPROVED, mpav := RStatus.APPROVED,
         hygiene := RStatus.APPROVED, layout := RStatus.APPROVED, public := Pub.N,
         public_reason := some PReason.COMMISSION, dhash := none, advice := none }] = true ∧
    public_implies_commissioned 1 20
      (TestProvider.reinstate_commission 1 CReason.NV 20
        [{ organisation_id := 1, date := 0, end_date := some 10, status := CStatus.SUSPENDED,
           prev_status := some CStatus.SUSPENDED, status_date := some 15,
           status_reason := some CReason.NV }]
        [{ organisation_id := 1, status := WfStatus.APPROVED, mpav := RStatus.APPROVED,
           hygiene := RStatus.APPROVED, layout := RStatus.APPROVED, public := Pub.N,
           public_reason := some PReason.COMMISSION, dhash := none, advice := none }]).1
      (TestProvider.reinstate_commission 1 CReason.NV 20
        [{ organisation_id := 1, date := 0, end_date := some 10, status := CStatus.SUSPENDED,
           prev_status := some CStatus.SUSPENDED, status_date := some 15,
           status_reason := some CReason.NV }]
        [{ organisation_id := 1, status := WfStatus.APPROVED, mpav := RStatus.APPROVED,
           hygiene := RStatus.APPROVED, layout := RStatus.APPROVED, public := Pub.N,
           public_reason := some PReason.COMMISSION, dhash := none, advice := none }]).2 =
      false := by decide

/-- C1 (amended): update_approval itself enforces the gate: it only
leaves a site publicly listed when the commissioned flag is set, so
when that flag is resolved from the commission table (as the source
does via current_commission), public = Y implies a CURRENT commission
covering today.  The bulk reinstatement cascade
(reinstate_commission / update_all), however, checks only commission
status and unlisting reason, not date coverage (see the
counterexample). -/
theorem C1_amended (ctx : SiteCtx) (a : Approval) (organisation_id : Nat) (today : Int)
    (cs : List Commission)
    (hc : ctx.commissioned = TestProvider.current_commission_exists organisation_id today cs)
    (hY : (TestStation.update_approval ctx a).1.public = Pub.Y) :
    TestProvider.current_commission_exists organisation_id today cs = true := by
  have hcore := coreOf_update_approval ctx a
  have hpub : (stepCore ctx.commissioned (TestStation.hitB ctx a) (coreOf a)).public =
      Pub.Y := by
    rw [← hcore]
    exact hY
  have hk := stepCore_public_gate (coreOf a) (TestStation.hitB ctx a) ctx.commissioned hpub
  rw [← hc]
  exact hk

/-- C1 witness: a fully reviewed site of an organisation with a
covering CURRENT commission is published, and the commission exists. -/
theorem C1_amended_witness :
    TestProvider.current_commission_exists 1 5
      [{ organisation_id := 1, date := 0, end_date := some 10, status := CStatus.CURRENT,
         prev_status := some CStatus.CURRENT, status_date := some 0,
         status_reason := none }] = true :=
  C1_amended { vhash := "h", isAdmin := false, commissioned := true }
    { organisation_id := 1, status := WfStatus.REVIEW, mpav := RStatus.APPROVED,
      hygiene := RStatus.APPROVED, layout := RStatus.APPROVED, public := Pub.N,
      public_reason := some PReason.REVIEW, dhash := none, advice := none }
    1 5
    [{ organisation_id := 1, date := 0, end_date := some 10, status := CStatus.CURRENT,
       prev_status := some CStatus.CURRENT, status_date := some 0,
       status_reason := none }]
    (by decide) (by decide)

/-- C5 counterexample: update_approval is not idempotent.  For a site
under review with one dimension under revision and the others
approved, the first call sets status REVISE with public_reason REVISE;
the second call, finding status REVISE with no dimension under review,
rewrites public_reason to REVIEW, so the record after the second call
differs from the record after the first (and, the public_reason being
a history field, a further history row is appended). -/
theorem C5_counterexample :
    (TestStation.update_approval { vhash := "h", isAdmin := false, commissioned := true }
      ((TestStation.update_approval { vhash := "h", isAdmin := false, commissioned := true }
        { organisation_id := 1, status := WfStatus.REVIEW, mpav := RStatus.REVISE,
          hygiene := RStatus.APPROVED, layout := RStatus.APPROVED, public := Pub.N,
          public_reason := some PReason.REVIEW, dhash := none, advice := none }).1)).1 ≠
    (TestStation.update_approval { vhash := "h", isAdmin := false, commissioned := true }
      { organisation_id := 1, status := WfStatus.REVIEW, mpav := RStatus.REVISE,
        hygiene := RStatus.APPROVED, layout := RStatus.APPROVED, public := Pub.N,
        public_reason := some PReason.REVIEW, dhash := none, advice := none }).1 := by
  decide

/-- C5 (amended): calling update_approval twice in succession with no
intervening data change leaves the organisation link, review
dimensions, public flag, stored hash, advice and deletion flag
unchanged after the second call; the second call can still change the
status (only from REVISE to REVIEW) and the public_reason (only from
REVISE to REVIEW), appending one further history row; from the second
call on the operation is a fixed point: a third call returns the
record unchanged. -/
theorem C5_amended (ctx : SiteCtx) (a a1 a2 : Approval)
    (ha1 : a1 = (TestStation.update_approval ctx a).1)
    (ha2 : a2 = (TestStation.update_approval ctx a1).1) :
    a2.organisation_id = a1.organisation_id ∧
    a2.mpav = a1.mpav ∧
    a2.hygiene = a1.hygiene ∧
    a2.layout = a1.layout ∧
    a2.public = a1.public ∧
    a2.dhash = a1.dhash ∧
    a2.advice = a1.advice ∧
    a2.deleted = a1.deleted ∧
    (a2.status = a1.status ∨
      (a1.status = WfStatus.REVISE ∧ a2.status = WfStatus.REVIEW)) ∧
    (a2.public_reason = a1.public_reason ∨
      (a1.public_reason = some PReason.REVISE ∧ a2.public_reason = some PReason.REVIEW)) ∧
    (TestStation.update_approval ctx a2).1 = a2 := by
  have hc1 : coreOf a1 = stepCore ctx.commissioned (TestStation.hitB ctx a) (coreOf a) := by
    rw [ha1]
    exact coreOf_update_approval ctx a
  have hh1 : TestStation.hitB ctx a1 = false := by
    rw [ha1]
    exact hitB_update_approval ctx a
  have hc2 : coreOf a2 = stepCore ctx.commissioned false (coreOf a1) := by
    rw [ha2, coreOf_update_approval ctx a1, hh1]
  have hh2 : TestStation.hitB ctx a2 = false := by
    rw [ha2]
    exact hitB_update_approval ctx a1
  have hs := stepCore_stability (coreOf a) (TestStation.hitB ctx a) ctx.commissioned
  rw [← hc1] at hs
  rw [← hc2] at hs
  obtain ⟨hm, hhy, hl, hp, hsor, hiff, hror, hfix⟩ := hs
  have hd1 : a1.dhash =
      (if (a1.status == WfStatus.APPROVED) then some ctx.vhash else none) := by
    rw [ha1]
    exact update_approval_dhash ctx a
  have hd2 : a2.dhash =
      (if (a2.status == WfStatus.APPROVED) then some ctx.vhash else none) := by
    rw [ha2]
    exact update_approval_dhash ctx a1
  have hdeq : a2.dhash = a1.dhash := by
    rw [hd1, hd2]
    by_cases hA : a1.status = WfStatus.APPROVED
    · have hA2 : a2.status = WfStatus.APPROVED := hiff.mpr hA
      simp [hA, hA2]
    · have hA2 : ¬ a2.status = WfStatus.APPROVED := fun h => hA (hiff.mp h)
      simp [hA, hA2]
  have hc3 : coreOf (TestStation.update_approval ctx a2).1 = coreOf a2 := by
    rw [coreOf_update_approval ctx a2, hh2, hfix]
  have hd3 : (TestStation.update_approval ctx a2).1.dhash = a2.dhash := by
    rw [update_approval_dhash ctx a2, hd2]
    have hst : (TestStation.update_approval ctx a2).1.status = a2.status :=
      congrArg ACore.status hc3
    rw [hst]
  refine ⟨?_, hm, hhy, hl, hp, hdeq, ?_, ?_, hsor, hror, ?_⟩
  · rw [ha2]
    exact update_approval_org ctx a1
  · rw [ha2]
    exact update_approval_advice ctx a1
  · rw [ha2]
    exact update_approval_deleted ctx a1
  · refine Approval.ext ?_ ?_ ?_ ?_ ?_ ?_ ?_ ?_ ?_ ?_
    · exact update_approval_org ctx a2
    · exact congrArg ACore.status hc3
    · exact congrArg ACore.mpav hc3
    · exact congrArg ACore.hygiene hc3
    · exact congrArg ACore.layout hc3
    · exact congrArg ACore.public hc3
    · exact congrArg ACore.public_reason hc3
    · exact hd3
    · exact update_approval_advice ctx a2
    · exact update_approval_deleted ctx a2

/-- C5 witness: for a concrete site, the record produced by the second
update_approval call is a fixed point of a third call. -/
theorem C5_amended_witness :
    (TestStation.update_approval { vhash := "h", isAdmin := false, commissioned := true }
      ((TestStation.update_approval { vhash := "h", isAdmin := false, commissioned := true }
        ((TestStation.update_approval { vhash := "h", isAdmin := false, commissioned := true }
          { organisation_id := 1, status := WfStatus.REVIEW, mpav := RStatus.REVISE,
            hygiene := RStatus.APPROVED, layout := RStatus.APPROVED, public := Pub.N,
            public_reason := some PReason.REVIEW, dhash := none, advice := none }).1)).1)).1 =
    (TestStation.update_approval { vhash := "h", isAdmin := false, commissioned := true }
      ((TestStation.update_approval { vhash := "h", isAdmin := false, commissioned := true }
        { organisation_id := 1, status := WfStatus.REVIEW, mpav := RStatus.REVISE,
          hygiene := RStatus.APPROVED, layout := RStatus.APPROVED, public := Pub.N,
          public_reason := some PReason.REVIEW, dhash := none, advice := none }).1)).1 :=
  (C5_amended { vhash := "h", isAdmin := false, commissioned := true }
    { organisation_id := 1, status := WfStatus.REVIEW, mpav := RStatus.REVISE,
      hygiene := RStatus.APPROVED, layout := RStatus.APPROVED, public := Pub.N,
      public_reason := some PReason.REVIEW, dhash := none, advice := none }
    ((TestStation.update_approval { vhash := "h", isAdmin := false, commissioned := true }
      { organisation_id := 1, status := WfStatus.REVIEW, mpav := RStatus.REVISE,
        hygiene := RStatus.APPROVED, layout := RStatus.APPROVED, public := Pub.N,
        public_reason := some PReason.REVIEW, dhash := none, advice := none }).1)
    ((TestStation.update_approval { vhash := "h", isAdmin := false, commissioned := true }
      ((TestStation.update_approval { vhash := "h", isAdmin := false, commissioned := true }
        { organisation_id := 1, status := WfStatus.REVIEW, mpav := RStatus.REVISE,
          hygiene := RStatus.APPROVED, layout := RStatus.APPROVED, public := Pub.N,
          public_reason := some PReason.REVIEW, dhash := none, advice := none }).1)).1)
    rfl rfl).2.2.2.2.2.2.2.2.2.2
